import Mathlib

/-!
Shallow embedding of the ntws_automation core (element finder, action
framework, hotkey table, region registry, order validation), translated
from the Python sources under `src/`:

* `src/actions/base.py`   — `ActionResult`, `CompositeAction.execute`
* `src/actions/order.py`  — `OrderParams.validate`
* `src/core/element.py`   — `ElementSpec`, `Element`, `ElementFinder`
* `src/input/hotkeys.py`  — `NTWSAction`, `NTWSHotkeys.register_custom`
* `src/screen/regions.py` — `RegionManager.load_config`

Conventions: Python `None`-able values become `Option`; Python floats
(prices, durations, scale factors) become `ℚ`; a Python method that can
raise becomes a function returning `Except`; effectful inputs (wall
clock, UI lookups) become explicit oracle parameters.
-/

namespace NTWS

/-! ## Action framework (`src/actions/base.py`) -/

/-- `ActionResult` dataclass (base.py lines 23-50): success flag, message,
data payload, optional error, duration, metadata.  The `data` payload is
`Any` in Python; the only structured payload the core ever stores there is
a list of sub-results (from `CompositeAction.execute`), so `data` is
embedded as `List ActionResult` with `[]` standing for `None`. -/
inductive ActionResult : Type where
  | mk (success : Bool) (message : String) (data : List ActionResult)
       (error : Option String) (duration : ℚ) : ActionResult
deriving Repr

/-- Projection: `ActionResult.success`. -/
def ActionResult.success : ActionResult → Bool
  | .mk s _ _ _ _ => s

/-- Projection: `ActionResult.message`. -/
def ActionResult.message : ActionResult → String
  | .mk _ m _ _ _ => m

/-- Projection: `ActionResult.data`. -/
def ActionResult.data : ActionResult → List ActionResult
  | .mk _ _ d _ _ => d

/-- Projection: `ActionResult.error`. -/
def ActionResult.error : ActionResult → Option String
  | .mk _ _ _ e _ => e

/-- Projection: `ActionResult.duration`. -/
def ActionResult.duration : ActionResult → ℚ
  | .mk _ _ _ _ d => d

/-- `ActionResult.ok(message, data, duration)` (base.py lines 42-45):
successful result, no error. -/
def ActionResult.ok (message : String) (data : List ActionResult) (duration : ℚ) :
    ActionResult :=
  .mk true message data none duration

/-- `ActionResult.fail(error, message, data, duration)` (base.py lines
47-50): failed result carrying the error string. -/
def ActionResult.fail (error : String) (message : String) (data : List ActionResult)
    (duration : ℚ) : ActionResult :=
  .mk false message data (some error) duration

/-- A sub-action of a composite, seen from `CompositeAction.execute`: its
`str()` form (used in the failure error message) and the `ActionResult`
its `execute(**kwargs)` call produces. -/
structure SubAction where
  name : String
  result : ActionResult

/-- The loop of `CompositeAction.execute` (base.py lines 242-255): run each
action in order, appending its result to `acc`; if a result has
`success = false` and `stop_on_failure` is set, stop and report the failing
action's name.  Returns the accumulated results and, on early stop, the
failing action's name. -/
def compositeLoop (stop_on_failure : Bool) :
    List SubAction → List ActionResult → List ActionResult × Option String
  | [], acc => (acc, none)
  | a :: rest, acc =>
      let acc' := acc ++ [a.result]
      if a.result.success = false ∧ stop_on_failure = true then
        (acc', some a.name)
      else
        compositeLoop stop_on_failure rest acc'

/-- `CompositeAction.execute` (base.py lines 232-261).  `elapsed` is the
value of `time.time() - start_time` at return, an oracle for the wall
clock. -/
def CompositeAction.execute (stop_on_failure : Bool) (actions : List SubAction)
    (elapsed : ℚ) : ActionResult :=
  match compositeLoop stop_on_failure actions [] with
  | (results, some failedName) =>
      ActionResult.fail ("Action failed: " ++ failedName)
        "Composite action stopped on failure" results elapsed
  | (results, none) =>
      ActionResult.ok ("Completed " ++ toString actions.length ++ " actions")
        results elapsed

lemma compositeLoop_stop (post : List SubAction) (b : SubAction)
    (hb : b.result.success = false) :
    ∀ (pre : List SubAction) (acc : List ActionResult),
      (∀ a ∈ pre, a.result.success = true) →
      compositeLoop true (pre ++ b :: post) acc =
        (acc ++ pre.map SubAction.result ++ [b.result], some b.name) := by
  intro pre
  induction pre with
  | nil =>
      intro acc _
      simp [compositeLoop, hb]
  | cons a rest ih =>
      intro acc hpre
      have ha : a.result.success = true := hpre a (by simp)
      have hrest : ∀ x ∈ rest, x.result.success = true := by
        intro x hx; exact hpre x (by simp [hx])
      simp only [List.cons_append, compositeLoop, ha]
      rw [if_neg (by simp)]
      rw [show rest.append (b :: post) = rest ++ b :: post from rfl]
      rw [ih (acc ++ [a.result]) hrest]
      simp

lemma compositeLoop_all (acts : List SubAction) :
    ∀ acc, compositeLoop false acts acc = (acc ++ acts.map SubAction.result, none) := by
  induction acts with
  | nil => intro acc; simp [compositeLoop]
  | cons a rest ih =>
      intro acc
      simp only [compositeLoop]
      rw [if_neg (by simp)]
      rw [ih (acc ++ [a.result])]
      simp

/-- C1: with `stop_on_failure = true`, the composite halts at the first
failing sub-action and returns a failed result whose data payload is
exactly the results of the sub-actions executed so far, in order, the
failing one included; no later sub-action is executed (its result never
appears). -/
theorem composite_stops_on_first_failure
    (pre post : List SubAction) (b : SubAction) (elapsed : ℚ)
    (hpre : ∀ a ∈ pre, a.result.success = true)
    (hb : b.result.success = false) :
    CompositeAction.execute true (pre ++ b :: post) elapsed =
      ActionResult.fail ("Action failed: " ++ b.name)
        "Composite action stopped on failure"
        (pre.map SubAction.result ++ [b.result]) elapsed := by
  unfold CompositeAction.execute
  rw [compositeLoop_stop post b hb pre [] hpre]
  simp

/-- Witness for C1 at [A(success), B(fail), C(success)]: the payload holds
exactly A's and B's results, not three. -/
theorem composite_stops_on_first_failure_witness :
    CompositeAction.execute true
        [⟨"A", ActionResult.ok "a" [] 0⟩,
         ⟨"B", ActionResult.fail "boom" "b" [] 0⟩,
         ⟨"C", ActionResult.ok "c" [] 0⟩] 0 =
      ActionResult.fail "Action failed: B" "Composite action stopped on failure"
        [ActionResult.ok "a" [] 0, ActionResult.fail "boom" "b" [] 0] 0 := by
  have h := composite_stops_on_first_failure
    [⟨"A", ActionResult.ok "a" [] 0⟩]
    [⟨"C", ActionResult.ok "c" [] 0⟩]
    ⟨"B", ActionResult.fail "boom" "b" [] 0⟩ 0
    (by intro a ha
        simp only [List.mem_singleton] at ha
        subst ha
        rfl)
    rfl
  simpa using h

/-- C2: with `stop_on_failure = false`, every sub-action is executed and the
composite returns a successful result whose data payload holds exactly one
result per sub-action, in execution order, failed sub-results included. -/
theorem composite_runs_all_without_stop (actions : List SubAction) (elapsed : ℚ) :
    CompositeAction.execute false actions elapsed =
      ActionResult.ok ("Completed " ++ toString actions.length ++ " actions")
        (actions.map SubAction.result) elapsed := by
  unfold CompositeAction.execute
  rw [compositeLoop_all actions []]
  simp

/-! ## Element model (`src/core/element.py`) -/

/-- `FindStrategy` enum (element.py lines 26-41). -/
inductive FindStrategy : Type where
  | UIA
  | OCR
  | IMAGE
  | POSITION
  | HYBRID
deriving DecidableEq, Repr

/-- `ElementSpec` dataclass (element.py lines 44-71).  Rectangles are
`(x, y, width, height)` integer tuples. -/
structure ElementSpec where
  name : Option String := none
  automation_id : Option String := none
  control_type : Option String := none
  class_name : Option String := none
  text_pattern : Option String := none
  image_template : Option String := none
  region : Option (Int × Int × Int × Int) := none
  strategy : FindStrategy := .UIA
  timeout : Int := 10
deriving DecidableEq, Repr

/-- Python truthiness of an `Optional[str]`: `None` and `""` are falsy. -/
def truthy : Option String → Bool
  | none => false
  | some s => !(s = "")

/-- `ElementSpec.__str__` (element.py lines 73-83): only `name`,
`automation_id`, `control_type` and `text_pattern` take part (each only
when truthy). -/
def ElementSpec.toStr (s : ElementSpec) : String :=
  let parts : List String :=
    (if truthy s.name then ["name=\x27" ++ s.name.getD "" ++ "\x27"] else []) ++
    (if truthy s.automation_id then ["id=\x27" ++ s.automation_id.getD "" ++ "\x27"] else []) ++
    (if truthy s.control_type then ["type=\x27" ++ s.control_type.getD "" ++ "\x27"] else []) ++
    (if truthy s.text_pattern then ["text=\x27" ++ s.text_pattern.getD "" ++ "\x27"] else [])
  "ElementSpec(" ++ String.intercalate ", " parts ++ ")"

instance {ε α : Type} [DecidableEq ε] [DecidableEq α] : DecidableEq (Except ε α) :=
  fun x y =>
    match x, y with
    | .ok a, .ok b =>
        if h : a = b then .isTrue (by rw [h]) else .isFalse (by simp [h])
    | .error a, .error b =>
        if h : a = b then .isTrue (by rw [h]) else .isFalse (by simp [h])
    | .ok _, .error _ => .isFalse (by simp)
    | .error _, .ok _ => .isFalse (by simp)

/-- A live accessibility node (pywinauto `UIAWrapper`) as the `Element`
properties observe it: each call either returns a value (`.ok`) or raises
(`.error ()`).  A stale node is one on which every call raises.  The
`rectangle` field already holds `(r.left, r.top, r.width(), r.height())`. -/
structure UiaNode where
  window_text : Except Unit String
  rectangle : Except Unit (Int × Int × Int × Int)
  enabledCall : Except Unit Bool
  visibleCall : Except Unit Bool
deriving DecidableEq, Repr

/-- `Element` (element.py lines 86-116): wraps an optional UIA node, an
optional rectangle and optional text (`_uia`, `_rect`, `_text`). -/
structure Element where
  uia : Option UiaNode := none
  rct : Option (Int × Int × Int × Int) := none
  txt : Option String := none
deriving DecidableEq, Repr

/-- `Element.text` property (element.py lines 118-128): a truthy `_text`
wins; else the node's `window_text()` with raises swallowed; else `""`. -/
def Element.text (e : Element) : String :=
  if truthy e.txt then e.txt.getD ""
  else
    match e.uia with
    | some node =>
        match node.window_text with
        | .ok s => s
        | .error _ => ""
    | none => ""

/-- `Element.bounds` property (element.py lines 130-146): `_rect` wins
(a 4-tuple is always truthy); else the node's rectangle with raises
swallowed; else `(0, 0, 0, 0)`. -/
def Element.bounds (e : Element) : Int × Int × Int × Int :=
  match e.rct with
  | some r => r
  | none =>
      match e.uia with
      | some node =>
          match node.rectangle with
          | .ok r => r
          | .error _ => (0, 0, 0, 0)
      | none => (0, 0, 0, 0)

/-- `Element.center` property (element.py lines 148-152); Python `//` is
floor division. -/
def Element.center (e : Element) : Int × Int :=
  let (x, y, w, h) := e.bounds
  (x + Int.fdiv w 2, y + Int.fdiv h 2)

/-- `Element.is_enabled` property (element.py lines 154-162): node raises
are swallowed, defaulting to `true`. -/
def Element.is_enabled (e : Element) : Bool :=
  match e.uia with
  | some node =>
      match node.enabledCall with
      | .ok b => b
      | .error _ => true
  | none => true

/-- `Element.is_visible` property (element.py lines 164-172): node raises
are swallowed, defaulting to `true`. -/
def Element.is_visible (e : Element) : Bool :=
  match e.uia with
  | some node =>
      match node.visibleCall with
      | .ok b => b
      | .error _ => true
  | none => true

/-! ## Element finder (`src/core/element.py`, class `ElementFinder`) -/

/-- First-match lookup in an insertion-ordered association list (Python
`dict` read). -/
def alGet {κ α : Type} [DecidableEq κ] : List (κ × α) → κ → Option α
  | [], _ => none
  | (k, v) :: rest, key => if k = key then some v else alGet rest key

/-- Python `dict` write: replace in place if the key exists, else append. -/
def alSet {κ α : Type} [DecidableEq κ] : List (κ × α) → κ → α → List (κ × α)
  | [], key, v => [(key, v)]
  | (k, w) :: rest, key, v =>
      if k = key then (k, v) :: rest else (k, w) :: alSet rest key v

/-- A registered strategy resolver: `ElementSpec → Optional[Element]`.  The
strategy table `_strategies` is a partial map from `FindStrategy`. -/
def StrategyTable : Type := FindStrategy → Option (ElementSpec → Option Element)

/-- `ElementFinder._find_by_position` (element.py lines 447-452). -/
def findByPosition (spec : ElementSpec) : Option Element :=
  match spec.region with
  | some r => some { rct := some r }
  | none => none

/-- The default strategy table registered by
`ElementFinder._register_default_strategies` (element.py lines 286-289):
`UIA ↦ _find_by_uia` and `POSITION ↦ _find_by_position`.  `_find_by_uia`
queries the live accessibility tree, so it enters the model as the oracle
`uiaFind`. -/
def defaultStrategies (uiaFind : ElementSpec → Option Element) : StrategyTable :=
  fun s =>
    match s with
    | .UIA => some uiaFind
    | .POSITION => some findByPosition
    | _ => none

/-- The strategy-dispatch tail of `ElementFinder.find` (element.py lines
329-339), reached when the cache yields nothing: run the spec's strategy
(unknown strategy ⇒ absent, logged); a found element is cached under
`str(spec)` only when `use_cache` is set. -/
def findFresh (strategies : StrategyTable) (cache : List (String × Element))
    (spec : ElementSpec) (use_cache : Bool) :
    Option Element × List (String × Element) :=
  match strategies spec.strategy with
  | none => (none, cache)
  | some strategyFn =>
      match strategyFn spec with
      | some element =>
          if use_cache then (some element, alSet cache spec.toStr element)
          else (some element, cache)
      | none => (none, cache)

/-- `ElementFinder.find` (element.py lines 305-339), with the finder's
`_cache` dict passed and returned explicitly.  The `tmo` argument mirrors
the Python `timeout` parameter, which the body never reads.  A cached
element under `str(spec)` is returned as-is when it reports visible;
otherwise the lookup falls through to `findFresh`. -/
def ElementFinder.find (strategies : StrategyTable)
    (cache : List (String × Element)) (spec : ElementSpec)
    (tmo : Option Int) (use_cache : Bool) :
    Option Element × List (String × Element) :=
  match (if use_cache then alGet cache spec.toStr else none) with
  | some cached =>
      if cached.is_visible then (some cached, cache)
      else findFresh strategies cache spec use_cache
  | none => findFresh strategies cache spec use_cache

/-- The model of the `TimeoutError` raised by `wait_for`
(core/exceptions.py lines 58-74): it stores the operation string and the
timeout value. -/
structure NTWSTimeout where
  operation : String
  timeout : Int
deriving DecidableEq, Repr

/-- The poll loop of `ElementFinder.wait_for` (element.py lines 395-399)
in idealized time: each iteration costs one 0.5 s sleep, `poll n` is the
value of `self.find(spec, use_cache=False)` on the n-th iteration, and
`remaining` is the number of iterations the deadline still allows. -/
def waitLoop (poll : Nat → Option Element) : Nat → Nat → Option Element
  | _, 0 => none
  | n, remaining + 1 =>
      match poll n with
      | some e => some e
      | none => waitLoop poll (n + 1) remaining

/-- `timeout = timeout or spec.timeout` (element.py line 392): a `None` or
`0` argument falls back to the spec's timeout (Python `or` on a falsy
int). -/
def effTimeout (tmo : Option Int) (specTimeout : Int) : Int :=
  match tmo with
  | none => specTimeout
  | some v => if v = 0 then specTimeout else v

/-- Number of poll iterations the `while time.time() - start_time <
timeout` guard admits at a 0.5 s step: all `n` with `n/2 < timeout`,
i.e. `n < 2 * timeout`. -/
def numPolls (t : Int) : Nat := (2 * t).toNat

/-- `ElementFinder.wait_for` (element.py lines 371-401): poll `find` with
caching disabled every 0.5 s until the deadline; raise
`TimeoutError(f"Element {spec}", timeout)` when exhausted. -/
def ElementFinder.wait_for (spec : ElementSpec) (tmo : Option Int)
    (poll : Nat → Option Element) : Except NTWSTimeout Element :=
  match waitLoop poll 0 (numPolls (effTimeout tmo spec.timeout)) with
  | some e => .ok e
  | none =>
      .error { operation := "Element " ++ spec.toStr,
               timeout := effTimeout tmo spec.timeout }

lemma waitLoop_all_none (poll : Nat → Option Element) :
    ∀ (r n : Nat), (∀ i, i < r → poll (n + i) = none) → waitLoop poll n r = none := by
  intro r
  induction r with
  | zero => intro n _; rfl
  | succ r ih =>
      intro n h
      have h0 : poll n = none := by simpa using h 0 (Nat.succ_pos r)
      simp only [waitLoop, h0]
      exact ih (n + 1) (by
        intro i hi
        have := h (i + 1) (by omega)
        simpa [Nat.add_assoc, Nat.add_comm 1 i] using this)

lemma waitLoop_first_some (poll : Nat → Option Element) :
    ∀ (r n k : Nat) (e : Element), k < r → (∀ j, j < k → poll (n + j) = none) →
      poll (n + k) = some e → waitLoop poll n r = some e := by
  intro r
  induction r with
  | zero => intro n k e hk; omega
  | succ r ih =>
      intro n k e hk hbefore hfound
      cases k with
      | zero =>
          simp only [Nat.add_zero] at hfound
          simp [waitLoop, hfound]
      | succ k =>
          have h0 : poll n = none := by simpa using hbefore 0 (Nat.succ_pos k)
          simp only [waitLoop, h0]
          exact ih (n + 1) k e (by omega)
            (by
              intro j hj
              have := hbefore (j + 1) (by omega)
              simpa [Nat.add_assoc, Nat.add_comm 1 j] using this)
            (by simpa [Nat.add_assoc, Nat.add_comm 1 k] using hfound)

/-- C3: `wait_for` polls `find` (cache disabled) at a fixed 0.5 s step; if
every poll the deadline admits returns absent it raises a `TimeoutError`
carrying the spec description and the timeout value, and if some poll
before the deadline returns an element it returns that element and does
not raise. -/
theorem wait_for_poll_contract (spec : ElementSpec) (tmo : Option Int)
    (poll : Nat → Option Element) :
    ((∀ n, n < numPolls (effTimeout tmo spec.timeout) → poll n = none) →
      ElementFinder.wait_for spec tmo poll =
        .error { operation := "Element " ++ spec.toStr,
                 timeout := effTimeout tmo spec.timeout }) ∧
    (∀ k e, k < numPolls (effTimeout tmo spec.timeout) →
      (∀ j, j < k → poll j = none) → poll k = some e →
      ElementFinder.wait_for spec tmo poll = .ok e) := by
  constructor
  · intro h
    unfold ElementFinder.wait_for
    rw [waitLoop_all_none poll (numPolls (effTimeout tmo spec.timeout)) 0
      (by intro i hi; simpa using h i hi)]
  · intro k e hk hbefore hfound
    unfold ElementFinder.wait_for
    rw [waitLoop_first_some poll (numPolls (effTimeout tmo spec.timeout)) 0 k e hk
      (by intro j hj; simpa using hbefore j hj) (by simpa using hfound)]

/-- Witness for C3: with the default spec (timeout 10 ⇒ 20 polls), the
always-absent oracle raises the timeout, and an oracle that resolves on
poll 3 returns that element. -/
theorem wait_for_poll_contract_witness :
    ElementFinder.wait_for {} none (fun _ => none) =
      .error { operation := "Element ElementSpec()", timeout := 10 } ∧
    ElementFinder.wait_for {} none
        (fun n => if n = 3 then some { txt := some "hit" } else none) =
      .ok { txt := some "hit" } := by
  constructor
  · exact (wait_for_poll_contract {} none (fun _ => none)).1 (by intro n _; rfl)
  · exact (wait_for_poll_contract {} none
        (fun n => if n = 3 then some { txt := some "hit" } else none)).2
      3 { txt := some "hit" } (by decide)
      (by intro j hj; interval_cases j <;> rfl) (by rfl)

/-- C10: an explicit timeout of `0` is falsy in `timeout or spec.timeout`,
so `wait_for(spec, timeout=0)` behaves exactly like
`wait_for(spec, timeout=spec.timeout)`. -/
theorem wait_for_zero_timeout (spec : ElementSpec) (poll : Nat → Option Element) :
    ElementFinder.wait_for spec (some 0) poll =
      ElementFinder.wait_for spec (some spec.timeout) poll := by
  unfold ElementFinder.wait_for effTimeout
  simp

/-- C4 (amended): for a fixed-position spec with a defined region, `find`
returns an element whose bounds equal the spec's region — with
`use_cache=false` unconditionally (the cache is never consulted), and
with `use_cache=true` provided no visible element sits in the cache under
the spec's string key. -/
theorem find_position_returns_region (uiaFind : ElementSpec → Option Element)
    (cache : List (String × Element)) (spec : ElementSpec)
    (r : Int × Int × Int × Int) (tmo : Option Int)
    (hstrat : spec.strategy = .POSITION) (hr : spec.region = some r) :
    (∃ e, (ElementFinder.find (defaultStrategies uiaFind) cache spec tmo false).1 =
        some e ∧ e.bounds = r) ∧
    ((∀ c, alGet cache spec.toStr = some c → c.is_visible = false) →
      ∃ e, (ElementFinder.find (defaultStrategies uiaFind) cache spec tmo true).1 =
        some e ∧ e.bounds = r) := by
  have hfresh : ∀ b, (findFresh (defaultStrategies uiaFind) cache spec b).1 =
      some { rct := some r } := by
    intro b
    simp only [findFresh, hstrat, defaultStrategies, findByPosition, hr]
    cases b <;> simp
  constructor
  · exact ⟨{ rct := some r }, by simpa [ElementFinder.find] using hfresh false, rfl⟩
  · intro hcache
    refine ⟨{ rct := some r }, ?_, rfl⟩
    cases hget : alGet cache spec.toStr with
    | none => simpa [ElementFinder.find, hget] using hfresh true
    | some c => simpa [ElementFinder.find, hget, hcache c hget] using hfresh true

/-- Witness for C4 (amended): against a cache that holds a visible element
under the aliased key, a `use_cache=false` find still resolves to the
spec's own region; against an empty cache a `use_cache=true` find does
too. -/
theorem find_position_returns_region_witness :
    (∃ e, (ElementFinder.find (defaultStrategies (fun _ => none))
        [("ElementSpec(name=\x27x\x27)", { rct := some (7, 7, 7, 7) })]
        { name := some "x", region := some (1, 2, 3, 4),
          strategy := .POSITION } none false).1 = some e ∧
      e.bounds = (1, 2, 3, 4)) ∧
    (∃ e, (ElementFinder.find (defaultStrategies (fun _ => none)) []
        { name := some "x", region := some (1, 2, 3, 4),
          strategy := .POSITION } none true).1 = some e ∧
      e.bounds = (1, 2, 3, 4)) := by
  constructor
  · exact (find_position_returns_region (fun _ => none)
      [("ElementSpec(name=\x27x\x27)", { rct := some (7, 7, 7, 7) })]
      { name := some "x", region := some (1, 2, 3, 4), strategy := .POSITION }
      (1, 2, 3, 4) none rfl rfl).1
  · exact (find_position_returns_region (fun _ => none) []
      { name := some "x", region := some (1, 2, 3, 4), strategy := .POSITION }
      (1, 2, 3, 4) none rfl rfl).2
      (by intro c hc; simp [alGet] at hc)

/-- The spec used to populate the cache in the aliasing scenarios. -/
def posSpec1 : ElementSpec :=
  { name := some "x", region := some (1, 2, 3, 4), strategy := .POSITION }

/-- A spec equal to `posSpec1` in every field `__str__` reads, but with a
different region. -/
def posSpec2 : ElementSpec :=
  { name := some "x", region := some (9, 9, 9, 9), strategy := .POSITION }

/-- A UIA oracle for a window where the accessibility lookup never
resolves. -/
def noUia : ElementSpec → Option Element := fun _ => none

/-- Counterexample to C4 as stated: after `find` caches the element
resolved for `posSpec1`, `find` on `posSpec2` (fixed-position, region
`(9,9,9,9)`, `use_cache=true`) returns the cached element, whose bounds
`(1,2,3,4)` differ from `posSpec2`'s region. -/
theorem find_position_cached_alias_cex :
    ∃ e, (ElementFinder.find (defaultStrategies noUia)
        (ElementFinder.find (defaultStrategies noUia) [] posSpec1 none true).2
        posSpec2 none true).1 = some e ∧
      e.bounds ≠ (9, 9, 9, 9) := by
  refine ⟨{ rct := some (1, 2, 3, 4) }, by rfl, by decide⟩

/-- C8: on an element wrapping a stale accessibility node — one on which
every call raises — no property propagates the fault: `text` is `""`,
`bounds` is `(0,0,0,0)`, `center` is `(0,0)`, `is_enabled` and
`is_visible` are `true`. -/
theorem element_stale_node_defaults (node : UiaNode)
    (h1 : node.window_text = .error ()) (h2 : node.rectangle = .error ())
    (h3 : node.enabledCall = .error ()) (h4 : node.visibleCall = .error ()) :
    Element.text { uia := some node } = "" ∧
    Element.bounds { uia := some node } = (0, 0, 0, 0) ∧
    Element.center { uia := some node } = (0, 0) ∧
    Element.is_enabled { uia := some node } = true ∧
    Element.is_visible { uia := some node } = true := by
  refine ⟨?_, ?_, ?_, ?_, ?_⟩
  · simp [Element.text, truthy, h1]
  · simp [Element.bounds, h2]
  · simp [Element.center, Element.bounds, h2]
  · simp [Element.is_enabled, h3]
  · simp [Element.is_visible, h4]

/-- Witness for C8 at the concrete always-raising node. -/
theorem element_stale_node_defaults_witness :
    Element.text { uia := some ⟨.error (), .error (), .error (), .error ()⟩ } = "" ∧
    Element.bounds { uia := some ⟨.error (), .error (), .error (), .error ()⟩ } =
      (0, 0, 0, 0) ∧
    Element.center { uia := some ⟨.error (), .error (), .error (), .error ()⟩ } =
      (0, 0) ∧
    Element.is_enabled { uia := some ⟨.error (), .error (), .error (), .error ()⟩ } =
      true ∧
    Element.is_visible { uia := some ⟨.error (), .error (), .error (), .error ()⟩ } =
      true :=
  element_stale_node_defaults ⟨.error (), .error (), .error (), .error ()⟩
    rfl rfl rfl rfl

lemma alGet_alSet_self {κ α : Type} [DecidableEq κ] (l : List (κ × α)) (k : κ) (v : α) :
    alGet (alSet l k v) k = some v := by
  induction l with
  | nil => simp [alSet, alGet]
  | cons p rest ih =>
      by_cases h : p.1 = k
      · simp [alSet, alGet, h]
      · simp [alSet, alGet, h, ih]

lemma findFresh_cached (strategies : StrategyTable)
    (cache cache' : List (String × Element)) (spec : ElementSpec) (e : Element)
    (h : findFresh strategies cache spec true = (some e, cache')) :
    alGet cache' spec.toStr = some e := by
  cases hstrat : strategies spec.strategy with
  | none => simp [findFresh, hstrat] at h
  | some fn =>
      cases hfn : fn spec with
      | none => simp [findFresh, hstrat, hfn] at h
      | some el =>
          simp only [findFresh, hstrat, hfn, if_pos, Prod.mk.injEq,
            Option.some.injEq] at h
          obtain ⟨rfl, rfl⟩ := h
          exact alGet_alSet_self ..

lemma find_cached_after (strategies : StrategyTable)
    (cache cache' : List (String × Element)) (spec : ElementSpec)
    (tmo : Option Int) (e : Element)
    (h : ElementFinder.find strategies cache spec tmo true = (some e, cache')) :
    alGet cache' spec.toStr = some e := by
  cases hget : alGet cache spec.toStr with
  | some c =>
      by_cases hvis : c.is_visible = true
      · simp only [ElementFinder.find, hget, hvis, if_pos, if_true, Prod.mk.injEq,
          Option.some.injEq] at h
        obtain ⟨rfl, rfl⟩ := h
        exact hget
      · simp only [ElementFinder.find, hget, hvis, if_pos, if_false,
          Bool.false_eq_true] at h
        exact findFresh_cached strategies cache cache' spec e h
  | none =>
      simp only [ElementFinder.find, hget, if_pos] at h
      exact findFresh_cached strategies cache cache' spec e h

/-- C9: two `ElementSpec`s that differ only in fields `__str__` ignores
(region, class name, image template, strategy, timeout) stringify
identically, hence share one cache key; after a successful cached `find`
on the first spec, a cached `find` on the second returns the element
cached for the first whenever it reports visible. -/
theorem spec_string_aliasing (s1 s2 : ElementSpec)
    (hn : s1.name = s2.name) (ha : s1.automation_id = s2.automation_id)
    (hc : s1.control_type = s2.control_type)
    (ht : s1.text_pattern = s2.text_pattern) :
    s1.toStr = s2.toStr ∧
    ∀ (strategies : StrategyTable) (cache cache' : List (String × Element))
      (tmo1 tmo2 : Option Int) (e : Element),
      ElementFinder.find strategies cache s1 tmo1 true = (some e, cache') →
      e.is_visible = true →
      (ElementFinder.find strategies cache' s2 tmo2 true).1 = some e := by
  have hstr : s1.toStr = s2.toStr := by
    simp [ElementSpec.toStr, hn, ha, hc, ht]
  refine ⟨hstr, ?_⟩
  intro strategies cache cache' tmo1 tmo2 e hfind hvis
  have hcached : alGet cache' s2.toStr = some e := by
    rw [← hstr]
    exact find_cached_after strategies cache cache' s1 tmo1 e hfind
  unfold ElementFinder.find
  simp [hcached, hvis]

/-- Witness for C9: `posSpec1`/`posSpec2` differ only in region; after a
cached `find` on `posSpec1`, a cached `find` on `posSpec2` returns
`posSpec1`'s element. -/
theorem spec_string_aliasing_witness :
    posSpec1.toStr = posSpec2.toStr ∧
    (ElementFinder.find (defaultStrategies noUia)
        (ElementFinder.find (defaultStrategies noUia) [] posSpec1 none true).2
        posSpec2 none true).1 = some { rct := some (1, 2, 3, 4) } := by
  have h := spec_string_aliasing posSpec1 posSpec2 rfl rfl rfl rfl
  refine ⟨h.1, ?_⟩
  exact h.2 (defaultStrategies noUia) []
    (ElementFinder.find (defaultStrategies noUia) [] posSpec1 none true).2
    none none { rct := some (1, 2, 3, 4) } (by rfl) (by rfl)

/-! ## Hotkey table (`src/input/hotkeys.py`) -/

/-- `NTWSAction` enum (hotkeys.py lines 22-58): the closed set of known
NTWS hotkey actions. -/
inductive NTWSAction : Type where
  | BUY | SELL | TRANSMIT_ORDER | CANCEL_ORDER | CANCEL_ALL | MODIFY_ORDER
  | OPEN_CHART | ZOOM_IN | ZOOM_OUT | RESET_CHART
  | SEARCH_SYMBOL | Portfolio | ORDERS | TRADES | WATCHLIST
  | NEW_WINDOW | CLOSE_WINDOW | TILE_WINDOWS | SETTINGS
  | REFRESH | EXPORT
deriving DecidableEq, Repr

/-- The string value of each `NTWSAction` member. -/
def NTWSAction.value : NTWSAction → String
  | .BUY => "buy"
  | .SELL => "sell"
  | .TRANSMIT_ORDER => "transmit"
  | .CANCEL_ORDER => "cancel"
  | .CANCEL_ALL => "cancel_all"
  | .MODIFY_ORDER => "modify"
  | .OPEN_CHART => "open_chart"
  | .ZOOM_IN => "zoom_in"
  | .ZOOM_OUT => "zoom_out"
  | .RESET_CHART => "reset_chart"
  | .SEARCH_SYMBOL => "search_symbol"
  | .Portfolio => "portfolio"
  | .ORDERS => "orders"
  | .TRADES => "trades"
  | .WATCHLIST => "watchlist"
  | .NEW_WINDOW => "new_window"
  | .CLOSE_WINDOW => "close_window"
  | .TILE_WINDOWS => "tile_windows"
  | .SETTINGS => "settings"
  | .REFRESH => "refresh"
  | .EXPORT => "export"

/-- Every member of the enumeration, in declaration order. -/
def NTWSAction.all : List NTWSAction :=
  [.BUY, .SELL, .TRANSMIT_ORDER, .CANCEL_ORDER, .CANCEL_ALL, .MODIFY_ORDER,
   .OPEN_CHART, .ZOOM_IN, .ZOOM_OUT, .RESET_CHART,
   .SEARCH_SYMBOL, .Portfolio, .ORDERS, .TRADES, .WATCHLIST,
   .NEW_WINDOW, .CLOSE_WINDOW, .TILE_WINDOWS, .SETTINGS,
   .REFRESH, .EXPORT]

/-- The Python constructor call `NTWSAction(name)` (hotkeys.py line 255):
`some` member with that value, or `none` where Python raises
`ValueError`. -/
def ntwsActionOfValue (name : String) : Option NTWSAction :=
  NTWSAction.all.find? (fun a => a.value = name)

/-- `HotkeyBinding` dataclass (hotkeys.py lines 61-85). -/
structure HotkeyBinding where
  action : NTWSAction
  modifiers : List String
  key : String
  description : String := ""
deriving DecidableEq, Repr

/-- The `NTWSHotkeys` manager's mutable state: its `bindings` dict
(hotkeys.py line 154). -/
structure NTWSHotkeys where
  bindings : List (NTWSAction × HotkeyBinding)
deriving DecidableEq, Repr

/-- `DEFAULT_HOTKEYS` (hotkeys.py lines 101-139). -/
def DEFAULT_HOTKEYS : List (NTWSAction × HotkeyBinding) :=
  [(.BUY, ⟨.BUY, ["alt"], "b", "Create buy order"⟩),
   (.SELL, ⟨.SELL, ["alt"], "s", "Create sell order"⟩),
   (.TRANSMIT_ORDER, ⟨.TRANSMIT_ORDER, ["alt"], "t", "Transmit order"⟩),
   (.CANCEL_ORDER, ⟨.CANCEL_ORDER, ["alt"], "d", "Cancel selected order"⟩),
   (.CANCEL_ALL, ⟨.CANCEL_ALL, ["alt"], "c", "Cancel all orders"⟩),
   (.SEARCH_SYMBOL, ⟨.SEARCH_SYMBOL, ["ctrl"], "f", "Search for symbol"⟩),
   (.Portfolio, ⟨.Portfolio, ["alt"], "p", "Open portfolio"⟩),
   (.ORDERS, ⟨.ORDERS, ["alt"], "o", "Open orders"⟩),
   (.CLOSE_WINDOW, ⟨.CLOSE_WINDOW, ["alt"], "f4", "Close window"⟩),
   (.REFRESH, ⟨.REFRESH, [], "f5", "Refresh data"⟩)]

/-- `NTWSHotkeys.register` (hotkeys.py lines 208-229): store or override
the binding for a known action. -/
def NTWSHotkeys.register (hk : NTWSHotkeys) (action : NTWSAction)
    (modifiers : List String) (key : String) (description : String) :
    NTWSHotkeys :=
  { bindings := alSet hk.bindings action ⟨action, modifiers, key, description⟩ }

/-- `NTWSHotkeys.register_custom` (hotkeys.py lines 231-264): resolve the
name through the enum; a name outside the enumeration yields `None`
(Python's `ValueError` branch) and skips the `register` call; the
resolved action (or `None`) is returned together with the resulting
state. -/
def NTWSHotkeys.register_custom (hk : NTWSHotkeys) (name : String)
    (modifiers : List String) (key : String) (description : String) :
    Option NTWSAction × NTWSHotkeys :=
  match ntwsActionOfValue name with
  | some action => (some action, hk.register action modifiers key description)
  | none => (none, hk)

/-- C6: `register_custom` with a name outside the closed `NTWSAction`
enumeration returns an absent action and leaves the binding table exactly
as it was; no exception escapes. -/
theorem register_custom_unknown_leaves_table (hk : NTWSHotkeys) (name : String)
    (modifiers : List String) (key : String) (description : String)
    (h : ntwsActionOfValue name = none) :
    hk.register_custom name modifiers key description = (none, hk) := by
  simp [NTWSHotkeys.register_custom, h]

/-- Witness for C6: the name `"frobnicate"` is outside the enumeration, and
a call on the default table returns it unchanged. -/
theorem register_custom_unknown_leaves_table_witness :
    NTWSHotkeys.register_custom ⟨DEFAULT_HOTKEYS⟩ "frobnicate" ["ctrl"] "q" "" =
      (none, ⟨DEFAULT_HOTKEYS⟩) :=
  register_custom_unknown_leaves_table ⟨DEFAULT_HOTKEYS⟩ "frobnicate"
    ["ctrl"] "q" "" (by rfl)

/-! ## Order validation (`src/actions/order.py`) -/

/-- Order side literal. -/
inductive Side : Type where
  | BUY | SELL
deriving DecidableEq, Repr

/-- Order type literal (`'MKT' | 'LMT' | 'STP' | 'STP_LMT'`). -/
inductive OrderType : Type where
  | MKT | LMT | STP | STP_LMT
deriving DecidableEq, Repr

/-- Time-in-force literal. -/
inductive TimeInForce : Type where
  | DAY | GTC | IOC | FOK
deriving DecidableEq, Repr

/-- `OrderParams` dataclass (order.py lines 21-41); float prices become
`ℚ`. -/
structure OrderParams where
  symbol : String
  side : Side
  quantity : Int
  order_type : OrderType := .LMT
  limit_price : Option ℚ := none
  stop_price : Option ℚ := none
  time_in_force : TimeInForce := .DAY
deriving DecidableEq, Repr

/-- The Python test `price is not None and price <= 0`. -/
def priceNonpositive : Option ℚ → Bool
  | none => false
  | some p => decide (p ≤ 0)

/-- `OrderParams.validate` (order.py lines 43-63), check for check in
source order. -/
def OrderParams.validate (p : OrderParams) : Option String :=
  if p.symbol = "" ∨ p.symbol.length > 10 then some "Invalid symbol"
  else if p.quantity ≤ 0 then some "Quantity must be positive"
  else if p.order_type = OrderType.LMT ∧ p.limit_price = none then
    some "Limit price required for LMT orders"
  else if (p.order_type = OrderType.STP ∨ p.order_type = OrderType.STP_LMT) ∧
      p.stop_price = none then
    some "Stop price required for stop orders"
  else if priceNonpositive p.limit_price = true then
    some "Limit price must be positive"
  else if priceNonpositive p.stop_price = true then
    some "Stop price must be positive"
  else none

/-- Counterexample to C5 as stated: a market order with a valid symbol and
quantity 100 is still rejected when `limit_price` is a non-`None`
non-positive value, so "no error regardless of the price fields" fails. -/
theorem order_params_mkt_negative_price_cex :
    OrderParams.validate
        { symbol := "AAPL", side := .BUY, quantity := 100,
          order_type := .MKT, limit_price := some (-1) } =
      some "Limit price must be positive" := by
  rfl

/-- C5 (amended): `validate` errors for LMT with no limit price, for
STP/STP_LMT with no stop price, and for quantity 0; and for a valid
symbol, quantity 100 and order type MKT it returns no error provided each
price field is absent or positive. -/
theorem order_params_validate_checks (p : OrderParams) :
    (p.order_type = OrderType.LMT → p.limit_price = none →
      p.validate ≠ none) ∧
    ((p.order_type = OrderType.STP ∨ p.order_type = OrderType.STP_LMT) →
      p.stop_price = none → p.validate ≠ none) ∧
    (p.quantity = 0 → p.validate ≠ none) ∧
    (p.symbol ≠ "" → p.symbol.length ≤ 10 → p.quantity = 100 →
      p.order_type = OrderType.MKT →
      priceNonpositive p.limit_price = false →
      priceNonpositive p.stop_price = false →
      p.validate = none) := by
  refine ⟨?_, ?_, ?_, ?_⟩
  · intro h1 h2
    unfold OrderParams.validate
    split_ifs <;> simp_all
  · intro h1 h2
    unfold OrderParams.validate
    rcases h1 with h1 | h1 <;> · split_ifs <;> simp_all
  · intro h
    unfold OrderParams.validate
    split_ifs <;> simp_all
  · intro hs hl hq ho hlp hsp
    unfold OrderParams.validate
    split_ifs <;> simp_all <;> omega

/-- Witness for C5 (amended) at concrete orders. -/
theorem order_params_validate_checks_witness :
    OrderParams.validate { symbol := "AAPL", side := .BUY, quantity := 100 } ≠ none ∧
    OrderParams.validate
        { symbol := "AAPL", side := .BUY, quantity := 100,
          order_type := .STP } ≠ none ∧
    OrderParams.validate
        { symbol := "AAPL", side := .BUY, quantity := 0,
          order_type := .MKT } ≠ none ∧
    OrderParams.validate
        { symbol := "AAPL", side := .BUY, quantity := 100,
          order_type := .MKT, limit_price := some 150 } = none := by
  refine ⟨?_, ?_, ?_, ?_⟩
  · exact (order_params_validate_checks _).1 rfl rfl
  · exact (order_params_validate_checks _).2.1 (Or.inl rfl) rfl
  · exact (order_params_validate_checks _).2.2.1 rfl
  · exact (order_params_validate_checks _).2.2.2 (by decide) (by decide) rfl rfl
      (by rfl) (by rfl)

/-! ## Region registry persistence (`src/screen/regions.py`)

`load_config` reads a JSON file.  The embedding works on the parse
outcome: the file is missing (`FileNotFoundError`), its text is not valid
JSON (`json.JSONDecodeError`), or it parses to a JSON value.  Python
exceptions the method does not catch surface as `Except.error`; on such
an error Python leaves any mutations already applied to `self`, which no
theorem below inspects. -/

/-- A parsed JSON value. -/
inductive Json : Type where
  | null
  | bool (b : Bool)
  | num (q : ℚ)
  | str (s : String)
  | arr (xs : List Json)
  | obj (fields : List (String × Json))

/-- Uncaught Python exception classes reachable from `load_config`. -/
inductive PyError : Type where
  | typeError
  | attributeError
  | keyError
deriving DecidableEq, Repr

/-- `sub` occurs in `s` starting at its head. -/
def charsStartsWith : List Char → List Char → Bool
  | _, [] => true
  | [], _ :: _ => false
  | c :: cs, d :: ds => c = d && charsStartsWith cs ds

/-- `sub` occurs somewhere in `s`. -/
def charsContain (s sub : List Char) : Bool :=
  match s with
  | [] => charsStartsWith [] sub
  | _ :: rest => charsStartsWith s sub || charsContain rest sub

/-- Python `key in config` on a JSON value: dict key test, list membership
test, substring test on a string; `TypeError` on the rest. -/
def jsonContains (config : Json) (key : String) : Except PyError Bool :=
  match config with
  | .obj fields => .ok (fields.any (fun kv => kv.1 = key))
  | .arr xs =>
      .ok (xs.any (fun j =>
        match j with
        | .str s => s = key
        | _ => false))
  | .str s => .ok (charsContain s.toList key.toList)
  | _ => .error .typeError

/-- Python `config[key]`: dict lookup (`KeyError` when absent);
`TypeError` on non-dict values indexed by a string. -/
def jsonGetItem (config : Json) (key : String) : Except PyError Json :=
  match config with
  | .obj fields =>
      match alGet fields key with
      | some v => .ok v
      | none => .error .keyError
  | _ => .error .typeError

/-- Python `value.items()`: only dicts have it (`AttributeError`
otherwise). -/
def jsonItems (value : Json) : Except PyError (List (String × Json)) :=
  match value with
  | .obj fields => .ok fields
  | _ => .error .attributeError

/-- A `Region` as `Region.from_dict` builds it (regions.py lines 119-122):
`Region(**data)` stores the supplied values without type checks, so each
field holds whatever JSON value the file supplied. -/
structure RegionJ where
  name : Json
  x : Json
  y : Json
  width : Json
  height : Json
  description : Json

/-- `Region.from_dict(data)` = `Region(**data)`: `data` must be a dict
whose keys are all dataclass field names, with every field lacking a
default supplied — otherwise Python raises `TypeError`.  `description`
defaults to `""`. -/
def regionFromDict (data : Json) : Except PyError RegionJ :=
  match data with
  | .obj fields =>
      if (fields.map Prod.fst).all (fun k =>
          k = "name" || k = "x" || k = "y" || k = "width" || k = "height" ||
          k = "description") then
        match alGet fields "name", alGet fields "x", alGet fields "y",
            alGet fields "width", alGet fields "height" with
        | some n, some xv, some yv, some wv, some hv =>
            .ok ⟨n, xv, yv, wv, hv, (alGet fields "description").getD (.str "")⟩
        | _, _, _, _, _ => .error .typeError
      else .error .typeError
  | _ => .error .typeError

/-- `PREDEFINED_REGIONS` (regions.py lines 140-185), with the dataclass
fields embedded as JSON values. -/
def PREDEFINED_REGIONS : List (String × RegionJ) :=
  [("symbol_input",
    ⟨.str "symbol_input", .num 100, .num 50, .num 200, .num 30,
     .str "Symbol search input field"⟩),
   ("price_display",
    ⟨.str "price_display", .num 400, .num 100, .num 150, .num 40,
     .str "Current price display"⟩),
   ("bid_price",
    ⟨.str "bid_price", .num 350, .num 150, .num 100, .num 30,
     .str "Bid price"⟩),
   ("ask_price",
    ⟨.str "ask_price", .num 450, .num 150, .num 100, .num 30,
     .str "Ask price"⟩),
   ("order_quantity",
    ⟨.str "order_quantity", .num 100, .num 200, .num 100, .num 30,
     .str "Order quantity input"⟩),
   ("order_price",
    ⟨.str "order_price", .num 220, .num 200, .num 100, .num 30,
     .str "Order price input"⟩),
   ("order_side",
    ⟨.str "order_side", .num 340, .num 200, .num 100, .num 30,
     .str "Order side (buy/sell)"⟩),
   ("transmit_button",
    ⟨.str "transmit_button", .num 500, .num 200, .num 80, .num 30,
     .str "Order transmit button"⟩),
   ("portfolio_table",
    ⟨.str "portfolio_table", .num 0, .num 300, .num 1920, .num 500,
     .str "Portfolio positions table"⟩),
   ("order_list",
    ⟨.str "order_list", .num 0, .num 300, .num 1920, .num 300,
     .str "Pending orders list"⟩),
   ("status_bar",
    ⟨.str "status_bar", .num 0, .num 1050, .num 1920, .num 30,
     .str "Status bar"⟩)]

/-- The `RegionManager` state `load_config` touches: its `scale_factor`
(any JSON value once loaded; initially the float `1.0`) and its `regions`
dict. -/
structure RMState where
  scale_factor : Json
  regions : List (String × RegionJ)

/-- The state set up by `RegionManager.__init__` (regions.py lines
187-207) before any config load. -/
def RegionManager.initState : RMState :=
  { scale_factor := .num 1, regions := PREDEFINED_REGIONS }

/-- What `load_config` sees of the file at `path`. -/
inductive LoadInput : Type where
  | fileMissing
  | malformedJson
  | parsed (config : Json)

/-- The `for name, data in config['regions'].items()` loop (regions.py
lines 335-336): dict writes apply one entry at a time, in order. -/
def loadRegions : List (String × Json) → RMState → Except PyError RMState
  | [], st => .ok st
  | (name, data) :: rest, st =>
      match regionFromDict data with
      | .ok r => loadRegions rest { st with regions := alSet st.regions name r }
      | .error e => .error e

/-- `RegionManager.load_config` (regions.py lines 320-343): only
`FileNotFoundError` and `json.JSONDecodeError` are caught (logged, state
kept); any other exception escapes. -/
def RegionManager.load_config : LoadInput → RMState → Except PyError RMState
  | .fileMissing, st => .ok st
  | .malformedJson, st => .ok st
  | .parsed config, st => do
      let hasSF ← jsonContains config "scale_factor"
      let st1 ←
        if hasSF then do
          let v ← jsonGetItem config "scale_factor"
          pure { st with scale_factor := v }
        else pure st
      let hasR ← jsonContains config "regions"
      if hasR then do
        let rj ← jsonGetItem config "regions"
        let items ← jsonItems rj
        loadRegions items st1
      else pure st1

/-- A syntactically valid JSON config whose single region entry is not a
valid `Region` keyword set. -/
def badRegionConfig : Json :=
  .obj [("regions", .obj [("foo", .obj [("bogus", .num 1)])])]

/-- Counterexample to C7 as stated: a file that parses as JSON but holds a
malformed region entry makes `load_config` raise (`TypeError` from
`Region(**data)`) instead of logging and keeping prior values. -/
theorem load_config_malformed_region_raises_cex :
    RegionManager.load_config (.parsed badRegionConfig) RegionManager.initState =
      .error .typeError := by
  rfl

/-- C7 (amended): `load_config` never raises for a missing file or for a
file whose content is not valid JSON — it logs and leaves the region
table and scale factor unchanged; only malformed content inside valid
JSON can escape as an exception. -/
theorem load_config_tolerates_missing_and_bad_json (st : RMState) :
    RegionManager.load_config .fileMissing st = .ok st ∧
    RegionManager.load_config .malformedJson st = .ok st :=
  ⟨rfl, rfl⟩

end NTWS
